import Mathlib

/-!
Shallow embedding of the scoring engine of the revenue-intelligence server
(`scoring.py`, with its configuration tables from `config.py` and the
conversion-insights gateway branch from `server.py`).

Numeric conventions: Python floats are modelled as exact rationals (ℚ); all
constants appearing in the engine are short decimals, and every comparison and
sum the engine performs on them is exact at these magnitudes.  Python's
`round(x, n)` is modelled as rounding `x * 10^n` to an integer (`pyRound`);
Python rounds half-to-even on binary floats, the model rounds half-up, and the
two agree away from exact decimal ties, which do not arise at any input
considered below.  `datetime.utcnow()` is modelled as an explicit `now : String`
argument threaded to each engine, so that the clock's influence on the result
is visible in the embedding.
-/

/-- Value of a signal as it appears in a feature attribution: the engine's
signal bags mix integers, floats, booleans and strings. -/
inductive SigValue where
  | nat : ℕ → SigValue
  | rat : ℚ → SigValue
  | bool : Bool → SigValue
  | str : String → SigValue
deriving DecidableEq, Repr

/-- Lead signals bag (`signals` dict).  Absent keys are `none`; the engine
reads each key through `Option.getD`, mirroring Python's `dict.get(key, d)`. -/
structure Signals where
  websiteVisits30d : Option ℕ
  emailEngagementScore : Option ℚ
  demoRequested : Option Bool
  freeTrialStarted : Option Bool
  whitepaperDownloads : Option ℕ
  linkedinEngagement : Option Bool
deriving DecidableEq, Repr

/-- The empty signals bag: every key absent. -/
def Signals.empty : Signals :=
  { websiteVisits30d := none, emailEngagementScore := none, demoRequested := none,
    freeTrialStarted := none, whitepaperDownloads := none, linkedinEngagement := none }

/-- Usage signals bag of an account (`usage_signals` dict).  `nps_score` is read
by the engine with `usage.get("nps_score")` (no default), so `none` models
absent-or-null; the other keys default to `0` via `Option.getD`. -/
structure UsageSignals where
  dailyActiveUsers : Option ℕ
  npsScore : Option ℤ
  supportTickets30d : Option ℕ
  loginFrequency7d : Option ℕ
  featuresAdopted : Option ℕ
  apiCallsPerDay : Option ℕ
deriving DecidableEq, Repr

/-- Account record as handed to the churn and conversion engines
(`account_data` dict: the engines read `id`, `company`, `plan` and
`usage_signals` directly). -/
structure Account where
  id : String
  company : String
  plan : String
  usageSignals : UsageSignals
deriving DecidableEq, Repr

/-- One feature attribution entry (`feature_name` / `contribution` / `value` /
`impact` dict produced by the scorers). -/
structure FeatureAttribution where
  featureName : String
  contribution : ℚ
  value : SigValue
  impact : String
deriving DecidableEq, Repr

/-- Lead-scoring result (`score_lead` return dict). -/
structure PredictionResult where
  score : ℚ
  tier : String
  featureAttributions : List FeatureAttribution
  explanation : String
  modelVersion : String
  timestamp : String
deriving DecidableEq, Repr

/-- Churn-risk result (`detect_churn_risk` return dict). -/
structure ChurnResult where
  accountId : String
  company : String
  riskScore : ℚ
  riskTier : String
  decliningSignals : List String
  suggestedInterventions : List String
  modelVersion : String
  timestamp : String
deriving DecidableEq, Repr

/-- Conversion-probability result (`calculate_conversion_probability` return
dict). -/
structure ConversionResult where
  accountId : String
  company : String
  trialDay : ℕ
  conversionProbability : ℚ
  probabilityTier : String
  keyEngagementSignals : List String
  recommendedActions : List String
  modelVersion : String
  timestamp : String
deriving DecidableEq, Repr

/-! ## Configuration constants (`config.py`) -/

/-- `MODEL_VERSION` from `config.py`. -/
def modelVersion : String := "v1.2.3"

/-- `LEAD_SCORE_WEIGHTS["company_size"]`. -/
def weightCompanySize : ℚ := 0.20

/-- `LEAD_SCORE_WEIGHTS["engagement_signals"]`. -/
def weightEngagementSignals : ℚ := 0.40

/-- `LEAD_SCORE_WEIGHTS["industry_fit"]`. -/
def weightIndustryFit : ℚ := 0.20

/-- `LEAD_SCORE_WEIGHTS["intent_signals"]`. -/
def weightIntentSignals : ℚ := 0.20

/-- `LEAD_TIER_THRESHOLDS["hot"]`. -/
def leadTierThresholdHot : ℚ := 70

/-- `LEAD_TIER_THRESHOLDS["warm"]`. -/
def leadTierThresholdWarm : ℚ := 40

/-- `CHURN_RISK_THRESHOLDS["critical"]`. -/
def churnThresholdCritical : ℚ := 70

/-- `CHURN_RISK_THRESHOLDS["high"]`. -/
def churnThresholdHigh : ℚ := 50

/-- `CHURN_RISK_THRESHOLDS["medium"]`. -/
def churnThresholdMedium : ℚ := 30

/-- `CONVERSION_THRESHOLDS["high"]`. -/
def conversionThresholdHigh : ℚ := 0.70

/-- `CONVERSION_THRESHOLDS["medium"]`. -/
def conversionThresholdMedium : ℚ := 0.40

/-- `INDUSTRY_FIT_SCORES.get(industry, INDUSTRY_FIT_SCORES["default"])`: the
16-entry industry table of `config.py`, transcribed as a first-match chain of
equality tests; an unknown industry falls back to the table's `"default"`
entry, 50. -/
def industryFit (industry : String) : ℚ :=
  if industry = "technology" then 90
  else if industry = "saas" then 85
  else if industry = "data_analytics" then 95
  else if industry = "finance" then 80
  else if industry = "healthcare" then 75
  else if industry = "insurance" then 75
  else if industry = "manufacturing" then 70
  else if industry = "energy" then 70
  else if industry = "professional_services" then 65
  else if industry = "education" then 60
  else if industry = "retail" then 55
  else if industry = "logistics" then 50
  else if industry = "real_estate" then 45
  else if industry = "agriculture" then 40
  else if industry = "hospitality" then 35
  else if industry = "nonprofit" then 30
  else if industry = "default" then 50
  else 50

/-- `get_company_size_score` from `config.py`: employee-count bucket score. -/
def get_company_size_score (employeeCount : ℕ) : ℚ :=
  if employeeCount ≥ 1000 then 100
  else if employeeCount ≥ 500 then 90
  else if employeeCount ≥ 200 then 80
  else if employeeCount ≥ 100 then 70
  else if employeeCount ≥ 50 then 60
  else if employeeCount ≥ 20 then 50
  else 30

/-! ## Rounding and decimal formatting helpers -/

/-- Python's `round(x, ndigits)` on the engine's exact decimals: round
`x * 10^ndigits` to an integer and scale back. -/
def pyRound (ndigits : ℕ) (q : ℚ) : ℚ :=
  ((round (q * (10 : ℚ) ^ ndigits) : ℤ) : ℚ) / (10 : ℚ) ^ ndigits

/-- Python's `f"{x:.1f}"` for the nonnegative scores the explanation prints:
one digit after the decimal point. -/
def formatFixed1 (q : ℚ) : String :=
  let t : ℤ := round (q * 10)
  toString (t / 10) ++ "." ++ toString ((t % 10).natAbs)

/-! ## Engagement and intent scorers (`scoring.py`) -/

/-- `calculate_engagement_score`: five fixed sub-features, each normalised to
0–100 with the source's cap policy, blended `0.25/0.30/0.20/0.15/0.10`;
returns the sub-score and the five attributions in evaluation order. -/
def calculate_engagement_score (signals : Signals) : ℚ × List FeatureAttribution :=
  let websiteVisits := signals.websiteVisits30d.getD 0
  let websiteScore : ℚ := min 100 ((websiteVisits : ℚ) / 50 * 100)
  let emailScore : ℚ := signals.emailEngagementScore.getD 0
  let demoRequested := signals.demoRequested.getD false
  let demoScore : ℚ := if demoRequested then 100 else 0
  let trialStarted := signals.freeTrialStarted.getD false
  let trialScore : ℚ := if trialStarted then 100 else 0
  let whitepaperDownloads := signals.whitepaperDownloads.getD 0
  let whitepaperScore : ℚ := min 100 ((whitepaperDownloads : ℚ) / 5 * 100)
  let attributions : List FeatureAttribution :=
    [ { featureName := "website_visits_30d", contribution := 25.0,
        value := SigValue.nat websiteVisits,
        impact := if websiteVisits > 20 then "positive" else "neutral" },
      { featureName := "email_engagement_score", contribution := 30.0,
        value := SigValue.rat emailScore,
        impact := if emailScore > 60 then "positive" else "neutral" },
      { featureName := "demo_requested", contribution := 20.0,
        value := SigValue.bool demoRequested,
        impact := if demoRequested then "positive" else "negative" },
      { featureName := "free_trial_started", contribution := 15.0,
        value := SigValue.bool trialStarted,
        impact := if trialStarted then "positive" else "neutral" },
      { featureName := "whitepaper_downloads", contribution := 10.0,
        value := SigValue.nat whitepaperDownloads,
        impact := if whitepaperDownloads > 2 then "positive" else "neutral" } ]
  let totalScore : ℚ :=
    websiteScore * 0.25 + emailScore * 0.30 + demoScore * 0.20 +
      trialScore * 0.15 + whitepaperScore * 0.10
  (totalScore, attributions)

/-- `calculate_intent_score`: LinkedIn engagement true → 100, false → 40, with
one attribution of display contribution 100. -/
def calculate_intent_score (signals : Signals) : ℚ × List FeatureAttribution :=
  let linkedin := signals.linkedinEngagement.getD false
  let linkedinScore : ℚ := if linkedin then 100 else 40
  ( linkedinScore,
    [ { featureName := "linkedin_engagement", contribution := 100.0,
        value := SigValue.bool linkedin,
        impact := if linkedin then "positive" else "neutral" } ] )

/-! ## Lead scoring engine (`score_lead` and its explanation helper) -/

/-- The final weighted lead score computed inside `score_lead` before rounding:
`size*0.20 + engagement*0.40 + industryFit*0.20 + intent*0.20`. -/
def lead_final_score (signals : Signals) (industry : String) (employeeCount : ℕ) : ℚ :=
  get_company_size_score employeeCount * weightCompanySize +
    (calculate_engagement_score signals).1 * weightEngagementSignals +
    industryFit industry * weightIndustryFit +
    (calculate_intent_score signals).1 * weightIntentSignals

/-- The tier thresholding inside `score_lead`: `>= 70` hot, `>= 40` warm,
else cold. -/
def lead_tier (finalScore : ℚ) : String :=
  if finalScore ≥ leadTierThresholdHot then "hot"
  else if finalScore ≥ leadTierThresholdWarm then "warm"
  else "cold"

/-- `generate_lead_explanation`: deterministic explanation template, built from
the unrounded score, the tier, the signals, and the company attributes. -/
def generate_lead_explanation (companyName : String) (score : ℚ) (tier : String)
    (signals : Signals) (employeeCount : ℕ) : String :=
  let part0 := companyName ++ " scored " ++ formatFixed1 score ++ "/100 (" ++ tier ++ " tier)."
  let positives : List String :=
    (if signals.demoRequested.getD false then ["demo requested"] else []) ++
    (if signals.freeTrialStarted.getD false then ["free trial started"] else []) ++
    (if signals.emailEngagementScore.getD 0 > 70 then ["high email engagement"] else []) ++
    (if employeeCount ≥ 500 then ["enterprise size"] else [])
  let parts1 :=
    if positives ≠ [] then
      [part0, " Strong signals: " ++ String.intercalate ", " positives ++ "."]
    else [part0]
  let concerns : List String :=
    (if signals.websiteVisits30d.getD 0 < 10 then ["low website engagement"] else []) ++
    (if ¬ signals.demoRequested.getD false then ["no demo requested"] else []) ++
    (if employeeCount < 50 then ["small company size"] else [])
  let parts2 :=
    if concerns ≠ [] ∧ tier ≠ "hot" then
      parts1 ++ [" Areas to improve: " ++ String.intercalate ", " concerns ++ "."]
    else parts1
  String.join parts2

/-- `score_lead`: composes the company-size, engagement, industry-fit and
intent sub-scores into the weighted final score, tier, ordered attribution
list (engagement and intent display contributions rescaled by their global
weights), explanation, model version and timestamp. -/
def score_lead (companyName : String) (signals : Signals) (industry : String)
    (employeeCount : ℕ) (now : String) : PredictionResult :=
  let companySizeScore := get_company_size_score employeeCount
  let sizeAttr : FeatureAttribution :=
    { featureName := "company_size", contribution := weightCompanySize * 100,
      value := SigValue.nat employeeCount,
      impact := if companySizeScore > 70 then "positive" else "neutral" }
  let engagementAttrs := (calculate_engagement_score signals).2
  let scaledEngagementAttrs := engagementAttrs.map
    (fun a => { a with contribution := a.contribution * weightEngagementSignals })
  let industryScore := industryFit industry
  let industryAttr : FeatureAttribution :=
    { featureName := "industry_fit", contribution := weightIndustryFit * 100,
      value := SigValue.str industry,
      impact := if industryScore > 70 then "positive" else "neutral" }
  let intentAttrs := (calculate_intent_score signals).2
  let scaledIntentAttrs := intentAttrs.map
    (fun a => { a with contribution := a.contribution * weightIntentSignals })
  let allAttributions :=
    [sizeAttr] ++ scaledEngagementAttrs ++ [industryAttr] ++ scaledIntentAttrs
  let finalScore := lead_final_score signals industry employeeCount
  let tier := lead_tier finalScore
  let explanation :=
    generate_lead_explanation companyName finalScore tier signals employeeCount
  { score := pyRound 2 finalScore, tier := tier,
    featureAttributions := allAttributions, explanation := explanation,
    modelVersion := modelVersion, timestamp := now }

/-! ## Churn risk engine (`detect_churn_risk` and its intervention helper) -/

/-- The sequential risk accumulation of `detect_churn_risk`: starts at 0 and
adds the point value of the first matching band of each of the five signals,
checked highest-severity first, in the source's order.  An absent `nps_score`
skips the NPS factor entirely. -/
def churn_risk_score (usage : UsageSignals) : ℚ :=
  let dau := usage.dailyActiveUsers.getD 0
  let s0 : ℚ := 0
  let s1 := if dau < 5 then s0 + 30 else if dau < 10 then s0 + 15 else s0
  let s2 := match usage.npsScore with
    | some nps => if nps ≤ 4 then s1 + 25 else if nps ≤ 6 then s1 + 10 else s1
    | none => s1
  let supportTickets := usage.supportTickets30d.getD 0
  let s3 := if supportTickets > 5 then s2 + 20 else if supportTickets > 3 then s2 + 10 else s2
  let loginFreq := usage.loginFrequency7d.getD 0
  let s4 := if loginFreq < 5 then s3 + 15 else s3
  let featuresAdopted := usage.featuresAdopted.getD 0
  let s5 := if featuresAdopted < 3 then s4 + 10 else s4
  s5

/-- The `risk_factors` list accumulated alongside the risk score in
`detect_churn_risk`, in rule-evaluation order. -/
def churn_risk_factors (usage : UsageSignals) : List String :=
  let dau := usage.dailyActiveUsers.getD 0
  let f0 : List String := []
  let f1 := if dau < 5 then f0 ++ ["Very low daily active users"]
    else if dau < 10 then f0 ++ ["Low daily active users"] else f0
  let f2 := match usage.npsScore with
    | some nps => if nps ≤ 4 then f1 ++ ["Low NPS score (detractor)"]
        else if nps ≤ 6 then f1 ++ ["Below-average NPS"] else f1
    | none => f1
  let supportTickets := usage.supportTickets30d.getD 0
  let f3 := if supportTickets > 5 then f2 ++ ["High support ticket volume"]
    else if supportTickets > 3 then f2 ++ ["Elevated support tickets"] else f2
  let loginFreq := usage.loginFrequency7d.getD 0
  let f4 := if loginFreq < 5 then f3 ++ ["Declining login frequency"] else f3
  let featuresAdopted := usage.featuresAdopted.getD 0
  let f5 := if featuresAdopted < 3 then f4 ++ ["Low feature adoption"] else f4
  f5

/-- Whether `needle` occurs in `hay` as a list infix, mirroring Python's
substring test `needle in hay`; helper for `strContains`. -/
def isPrefixList : List Char → List Char → Bool
  | [], _ => true
  | _ :: _, [] => false
  | a :: as, b :: bs => a == b && isPrefixList as bs

/-- Helper for `strContains`: does `needle` occur starting at some position of
the second list? -/
def containsSub (needle : List Char) : List Char → Bool
  | [] => needle.isEmpty
  | b :: bs => isPrefixList needle (b :: bs) || containsSub needle bs

/-- Python's `needle in hay` substring test on strings. -/
def strContains (hay needle : String) : Bool :=
  containsSub needle.toList hay.toList

/-- The per-factor body of the intervention loop of
`generate_intervention_suggestions`: three independent substring tests, each
appending its suggestion when the factor text matches. -/
def intervention_step (acc : List String) (factor : String) : List String :=
  let acc1 := if strContains factor "NPS" || strContains factor "support ticket" then
      acc ++ ["Schedule executive business review to address concerns"]
    else acc
  let acc2 := if strContains factor "daily active" || strContains factor "login" then
      acc1 ++ ["Provide personalized onboarding/training session"]
    else acc1
  let acc3 := if strContains factor "feature adoption" then
      acc2 ++ ["Demonstrate advanced features relevant to their use case"]
    else acc2
  acc3

/-- `generate_intervention_suggestions`: for each risk-factor string, append
the interventions whose substring pattern matches; append the upsell
suggestion when the account's plan is `"starter"`; then deduplicate.
Python's `list(set(...))` returns the deduplicated elements in unspecified
(hash) order; the model uses `List.dedup`, which preserves the same element
set. -/
def generate_intervention_suggestions (riskFactors : List String)
    (accountData : Account) : List String :=
  let fromFactors := riskFactors.foldl intervention_step []
  let interventions := if accountData.plan = "starter" then
      fromFactors ++ ["Explore upsell to Professional tier with more features"]
    else fromFactors
  interventions.dedup

/-- The tier thresholding inside `detect_churn_risk`: `>= 70` critical,
`>= 50` high, `>= 30` medium, else low. -/
def churn_risk_tier (riskScore : ℚ) : String :=
  if riskScore ≥ churnThresholdCritical then "critical"
  else if riskScore ≥ churnThresholdHigh then "high"
  else if riskScore ≥ churnThresholdMedium then "medium"
  else "low"

/-- `detect_churn_risk`: additive rule-based risk score over the account's
usage signals, tier, declining-signal list, intervention suggestions, model
version and timestamp. -/
def detect_churn_risk (accountData : Account) (now : String) : ChurnResult :=
  let usage := accountData.usageSignals
  let riskScore := churn_risk_score usage
  let riskFactors := churn_risk_factors usage
  let riskTier := churn_risk_tier riskScore
  let interventions := generate_intervention_suggestions riskFactors accountData
  { accountId := accountData.id, company := accountData.company,
    riskScore := pyRound 2 riskScore, riskTier := riskTier,
    decliningSignals := riskFactors, suggestedInterventions := interventions,
    modelVersion := modelVersion, timestamp := now }

/-! ## Conversion engine (`calculate_conversion_probability`) -/

/-- The sequential probability accumulation of
`calculate_conversion_probability`: starts at 0.0 and adds the bonus of the
first matching band of each of the four signals, highest threshold first. -/
def conversion_probability_raw (usage : UsageSignals) : ℚ :=
  let dau := usage.dailyActiveUsers.getD 0
  let p0 : ℚ := 0
  let p1 := if dau ≥ 15 then p0 + 0.30 else if dau ≥ 10 then p0 + 0.20
    else if dau ≥ 5 then p0 + 0.10 else p0
  let features := usage.featuresAdopted.getD 0
  let p2 := if features ≥ 5 then p1 + 0.25 else if features ≥ 3 then p1 + 0.15
    else if features ≥ 2 then p1 + 0.05 else p1
  let apiCalls := usage.apiCallsPerDay.getD 0
  let p3 := if apiCalls ≥ 300 then p2 + 0.20 else if apiCalls ≥ 150 then p2 + 0.10
    else if apiCalls ≥ 50 then p2 + 0.05 else p2
  let loginFreq := usage.loginFrequency7d.getD 0
  let p4 := if loginFreq ≥ 14 then p3 + 0.25 else if loginFreq ≥ 10 then p3 + 0.15
    else if loginFreq ≥ 5 then p3 + 0.05 else p3
  p4

/-- `get_probability_tier`: `>= 0.70` high, `>= 0.40` medium, else low. -/
def get_probability_tier (probability : ℚ) : String :=
  if probability ≥ conversionThresholdHigh then "high"
  else if probability ≥ conversionThresholdMedium then "medium"
  else "low"

/-- `calculate_conversion_probability`: additive band bonuses over the trial
account's usage signals, fixed `trial_day = 10`, engagement-signal strings at
their own thresholds, tier-based recommended actions, model version and
timestamp. -/
def calculate_conversion_probability (accountData : Account) (now : String) :
    ConversionResult :=
  let usage := accountData.usageSignals
  let probability := conversion_probability_raw usage
  let dau := usage.dailyActiveUsers.getD 0
  let features := usage.featuresAdopted.getD 0
  let apiCalls := usage.apiCallsPerDay.getD 0
  let trialDay : ℕ := 10
  let engagementSignals : List String :=
    (if dau ≥ 10 then ["Strong daily usage (" ++ toString dau ++ " DAU)"] else []) ++
    (if features ≥ 3 then ["Good feature adoption (" ++ toString features ++ " features)"] else []) ++
    (if apiCalls ≥ 150 then ["Active API integration (" ++ toString apiCalls ++ " calls/day)"] else [])
  let recommendations : List String :=
    if probability ≥ conversionThresholdHigh then
      ["Send upgrade prompt with success stories",
       "Offer onboarding call to ensure success"]
    else if probability ≥ conversionThresholdMedium then
      ["Provide feature tutorial to drive adoption",
       "Share case study from similar customer"]
    else
      ["Increase engagement with personalized outreach",
       "Identify and remove adoption blockers"]
  { accountId := accountData.id, company := accountData.company,
    trialDay := trialDay, conversionProbability := pyRound 3 probability,
    probabilityTier := get_probability_tier probability,
    keyEngagementSignals := engagementSignals,
    recommendedActions := recommendations,
    modelVersion := modelVersion, timestamp := now }

/-! ## Gateway branch for conversion insights (`server.py`, `call_tool`) -/

/-- A structured error response returned by the gateway as data. -/
structure ErrorResponse where
  error : String
deriving DecidableEq, Repr

/-- A gateway response to `get_conversion_insights`: either a structured error
object or a conversion result. -/
inductive ConversionInsightsResponse where
  | errObj : ErrorResponse → ConversionInsightsResponse
  | ok : ConversionResult → ConversionInsightsResponse
deriving DecidableEq, Repr

/-- The `get_conversion_insights` branch of the gateway's `call_tool`: resolve
the account id in the record store; an unknown id raises (`Except.error`
models the raised `ValueError`); a resolved non-trial account returns a
structured error object; a trial account is scored by the conversion engine. -/
def get_conversion_insights (getAccount : String → Option Account)
    (accountId : String) (now : String) :
    Except String ConversionInsightsResponse :=
  match getAccount accountId with
  | none => Except.error ("Account not found: " ++ accountId)
  | some account =>
    if account.plan ≠ "trial" then
      Except.ok (ConversionInsightsResponse.errObj
        { error := "Account " ++ accountId ++ " is not a trial account (plan: " ++
            account.plan ++ ")" })
    else
      Except.ok (ConversionInsightsResponse.ok
        (calculate_conversion_probability account now))

/-! ## Concrete inputs used by the example claims -/

/-- The hot-lead example signals bag: visits 60, demo true, downloads 5,
email 90, LinkedIn true, trial true. -/
def hotLeadSignals : Signals :=
  { websiteVisits30d := some 60, emailEngagementScore := some 90,
    demoRequested := some true, freeTrialStarted := some true,
    whitepaperDownloads := some 5, linkedinEngagement := some true }

/-- The critical-churn example account: dau 3, nps 3, tickets 8, login 2,
features 2. -/
def criticalChurnAccount : Account :=
  { id := "acct-churn", company := "ChurnCo", plan := "professional",
    usageSignals :=
      { dailyActiveUsers := some 3, npsScore := some 3,
        supportTickets30d := some 8, loginFrequency7d := some 2,
        featuresAdopted := some 2, apiCallsPerDay := none } }

/-- The top-band trial account: dau 20, features 6, api 500, login 18. -/
def topTrialAccount : Account :=
  { id := "acct-trial", company := "TrialCo", plan := "trial",
    usageSignals :=
      { dailyActiveUsers := some 20, npsScore := none,
        supportTickets30d := none, loginFrequency7d := some 18,
        featuresAdopted := some 6, apiCallsPerDay := some 500 } }

/-! ## Claim theorems -/

/-- `pyRound` is the identity on rationals that are already exact decimals
with at most `d` digits after the point. -/
lemma pyRound_eq_self {d : ℕ} {q : ℚ} (h : ∃ n : ℤ, q * 10 ^ d = (n : ℚ)) :
    pyRound d q = q := by
  obtain ⟨n, hn⟩ := h
  unfold pyRound
  rw [hn, round_intCast, ← hn]
  field_simp

/-- C1: for the signals bag {website_visits_30d:60, demo_requested:true,
whitepaper_downloads:5, email_engagement_score:90, linkedin_engagement:true,
free_trial_started:true} with industry "technology" and employee_count 1000,
`score_lead` yields the engagement sub-score 97.0, company-size sub-score 100,
industry sub-score 90, intent sub-score 100, final score 96.8 and tier
"hot". -/
theorem c1_hot_lead_example_scores :
    ∀ name now : String,
      (calculate_engagement_score hotLeadSignals).1 = 97 ∧
      get_company_size_score 1000 = 100 ∧
      industryFit "technology" = 90 ∧
      (calculate_intent_score hotLeadSignals).1 = 100 ∧
      lead_final_score hotLeadSignals "technology" 1000 = 96.8 ∧
      (score_lead name hotLeadSignals "technology" 1000 now).score = 96.8 ∧
      (score_lead name hotLeadSignals "technology" 1000 now).tier = "hot" := by
  intro name now
  have heng : (calculate_engagement_score hotLeadSignals).1 = 97 := by
    norm_num [calculate_engagement_score, hotLeadSignals, min_def]
  have hint : (calculate_intent_score hotLeadSignals).1 = 100 := by
    norm_num [calculate_intent_score, hotLeadSignals]
  have hfinal : lead_final_score hotLeadSignals "technology" 1000 = 96.8 := by
    rw [lead_final_score, heng, hint]
    norm_num [get_company_size_score, industryFit, weightCompanySize,
      weightEngagementSignals, weightIndustryFit, weightIntentSignals]
  refine ⟨heng, by norm_num [get_company_size_score], by norm_num [industryFit],
    hint, hfinal, ?_, ?_⟩
  · show pyRound 2 (lead_final_score hotLeadSignals "technology" 1000) = 96.8
    rw [hfinal]
    exact pyRound_eq_self ⟨9680, by norm_num⟩
  · show lead_tier (lead_final_score hotLeadSignals "technology" 1000) = "hot"
    rw [hfinal]
    norm_num [lead_tier, leadTierThresholdHot]

/-- C6: every engine call is total by construction in this embedding (all
definitions are total functions, and absent keys are read through defaults);
in particular `score_lead` on the empty signals bag with industry
"technology" and employee_count 100 returns the deterministic result fixed by
the formulas: company-size sub-score 70, industry sub-score 90, intent
sub-score 40, engagement sub-score 0 from all-default signals, final score
40.0 and tier "warm", for every company name and clock value. -/
theorem c6_empty_signals_total_deterministic :
    ∀ name now : String,
      get_company_size_score 100 = 70 ∧
      industryFit "technology" = 90 ∧
      (calculate_intent_score Signals.empty).1 = 40 ∧
      (calculate_engagement_score Signals.empty).1 = 0 ∧
      lead_final_score Signals.empty "technology" 100 = 40 ∧
      (score_lead name Signals.empty "technology" 100 now).score = 40 ∧
      (score_lead name Signals.empty "technology" 100 now).tier = "warm" := by
  intro name now
  have heng : (calculate_engagement_score Signals.empty).1 = 0 := by
    norm_num [calculate_engagement_score, Signals.empty, min_def]
  have hint : (calculate_intent_score Signals.empty).1 = 40 := by
    norm_num [calculate_intent_score, Signals.empty]
  have hfinal : lead_final_score Signals.empty "technology" 100 = 40 := by
    rw [lead_final_score, heng, hint]
    norm_num [get_company_size_score, industryFit, weightCompanySize,
      weightEngagementSignals, weightIndustryFit, weightIntentSignals]
  refine ⟨by norm_num [get_company_size_score], by norm_num [industryFit],
    hint, heng, hfinal, ?_, ?_⟩
  · show pyRound 2 (lead_final_score Signals.empty "technology" 100) = 40
    rw [hfinal]
    exact pyRound_eq_self ⟨4000, by norm_num⟩
  · show lead_tier (lead_final_score Signals.empty "technology" 100) = "warm"
    rw [hfinal]
    norm_num [lead_tier, leadTierThresholdHot, leadTierThresholdWarm]

/-- C8: each engine, run twice on identical input with different clock values,
produces results that agree on every field except `timestamp`, and the
`timestamp` field is exactly the clock value; the clock is modelled as the
explicit `now` argument, so this states that the clock influences nothing but
the timestamp. -/
theorem c8_engines_deterministic_modulo_timestamp :
    ∀ (name industry : String) (signals : Signals) (employeeCount : ℕ)
      (account : Account) (t1 t2 t : String),
      { score_lead name signals industry employeeCount t1 with timestamp := "" } =
        { score_lead name signals industry employeeCount t2 with timestamp := "" } ∧
      (score_lead name signals industry employeeCount t).timestamp = t ∧
      { detect_churn_risk account t1 with timestamp := "" } =
        { detect_churn_risk account t2 with timestamp := "" } ∧
      (detect_churn_risk account t).timestamp = t ∧
      { calculate_conversion_probability account t1 with timestamp := "" } =
        { calculate_conversion_probability account t2 with timestamp := "" } ∧
      (calculate_conversion_probability account t).timestamp = t := by
  intro name industry signals employeeCount account t1 t2 t
  exact ⟨rfl, rfl, rfl, rfl, rfl, rfl⟩

/-- C10: for every input, the attribution list of `score_lead` has exactly the
8 entries company_size, website_visits_30d, email_engagement_score,
demo_requested, free_trial_started, whitepaper_downloads, industry_fit,
linkedin_engagement, in that order, and the rescaled contribution values sum
to exactly 100 (20 + 0.40·(25+30+20+15+10) + 20 + 0.20·100). -/
theorem c10_attribution_names_and_contribution_sum :
    ∀ (name industry now : String) (signals : Signals) (employeeCount : ℕ),
      (score_lead name signals industry employeeCount now).featureAttributions.map
          FeatureAttribution.featureName =
        ["company_size", "website_visits_30d", "email_engagement_score",
         "demo_requested", "free_trial_started", "whitepaper_downloads",
         "industry_fit", "linkedin_engagement"] ∧
      ((score_lead name signals industry employeeCount now).featureAttributions.map
          FeatureAttribution.contribution).sum = 100 ∧
      (score_lead name signals industry employeeCount now).featureAttributions.length = 8 := by
  intro name industry now signals employeeCount
  refine ⟨rfl, ?_, rfl⟩
  show weightCompanySize * 100 +
      (25.0 * weightEngagementSignals + (30.0 * weightEngagementSignals +
        (20.0 * weightEngagementSignals + (15.0 * weightEngagementSignals +
          (10.0 * weightEngagementSignals + (weightIndustryFit * 100 +
            (100.0 * weightIntentSignals + 0))))))) = 100
  norm_num [weightCompanySize, weightEngagementSignals, weightIndustryFit,
    weightIntentSignals]

/-- Commuting a three-band accumulation step into `previous + band`. -/
lemma ite_accum_three (c1 c2 c3 : Prop) [Decidable c1] [Decidable c2] [Decidable c3]
    (p a b c : ℚ) :
    (if c1 then p + a else if c2 then p + b else if c3 then p + c else p) =
      p + (if c1 then a else if c2 then b else if c3 then c else 0) := by
  split_ifs <;> ring

/-- Commuting a two-band accumulation step into `previous + band`. -/
lemma ite_accum_two (c1 c2 : Prop) [Decidable c1] [Decidable c2] (p a b : ℚ) :
    (if c1 then p + a else if c2 then p + b else p) =
      p + (if c1 then a else if c2 then b else 0) := by
  split_ifs <;> ring

/-- Commuting a one-band accumulation step into `previous + band`. -/
lemma ite_accum_one (c1 : Prop) [Decidable c1] (p a : ℚ) :
    (if c1 then p + a else p) = p + (if c1 then a else 0) := by
  split_ifs <;> ring

/-- The sequential churn accumulation equals the sum of one band per signal,
each band selected highest-severity first. -/
lemma churn_risk_score_eq (u : UsageSignals) :
    churn_risk_score u =
      (if u.dailyActiveUsers.getD 0 < 5 then (30 : ℚ)
        else if u.dailyActiveUsers.getD 0 < 10 then 15 else 0) +
      (match u.npsScore with
        | some nps => if nps ≤ 4 then (25 : ℚ) else if nps ≤ 6 then 10 else 0
        | none => 0) +
      (if u.supportTickets30d.getD 0 > 5 then (20 : ℚ)
        else if u.supportTickets30d.getD 0 > 3 then 10 else 0) +
      (if u.loginFrequency7d.getD 0 < 5 then (15 : ℚ) else 0) +
      (if u.featuresAdopted.getD 0 < 3 then (10 : ℚ) else 0) := by
  obtain ⟨d, n, st, lf, fa, ac⟩ := u
  unfold churn_risk_score
  dsimp only
  rcases n with _ | nps
  · dsimp only
    rw [ite_accum_one, ite_accum_one, ite_accum_two, ite_accum_two]
    ring
  · dsimp only
    rw [ite_accum_one, ite_accum_one, ite_accum_two, ite_accum_two, ite_accum_two]
    ring

/-- C3: churn risk is the additive sum over the five signals with at most one
band per signal firing (highest severity first), an absent NPS score
contributing nothing; and on dau=3, nps=3, tickets=8, login=2, features=2 the
risk score is 100, the tier is "critical", and the declining-signals list has
length 5. -/
theorem c3_churn_additive_bands_and_critical_example :
    (∀ u : UsageSignals,
      churn_risk_score u =
        (if u.dailyActiveUsers.getD 0 < 5 then (30 : ℚ)
          else if u.dailyActiveUsers.getD 0 < 10 then 15 else 0) +
        (match u.npsScore with
          | some nps => if nps ≤ 4 then (25 : ℚ) else if nps ≤ 6 then 10 else 0
          | none => 0) +
        (if u.supportTickets30d.getD 0 > 5 then (20 : ℚ)
          else if u.supportTickets30d.getD 0 > 3 then 10 else 0) +
        (if u.loginFrequency7d.getD 0 < 5 then (15 : ℚ) else 0) +
        (if u.featuresAdopted.getD 0 < 3 then (10 : ℚ) else 0)) ∧
    (∀ now : String,
      (detect_churn_risk criticalChurnAccount now).riskScore = 100 ∧
      (detect_churn_risk criticalChurnAccount now).riskTier = "critical" ∧
      (detect_churn_risk criticalChurnAccount now).decliningSignals.length = 5) := by
  refine ⟨churn_risk_score_eq, ?_⟩
  intro now
  have hscore : churn_risk_score criticalChurnAccount.usageSignals = 100 := by
    rw [churn_risk_score_eq]
    norm_num [criticalChurnAccount]
  refine ⟨?_, ?_, ?_⟩
  · show pyRound 2 (churn_risk_score criticalChurnAccount.usageSignals) = 100
    rw [hscore]
    exact pyRound_eq_self ⟨10000, by norm_num⟩
  · show churn_risk_tier (churn_risk_score criticalChurnAccount.usageSignals) = "critical"
    rw [hscore]
    norm_num [churn_risk_tier, churnThresholdCritical]
  · show (churn_risk_factors criticalChurnAccount.usageSignals).length = 5
    decide

/-- The sequential conversion accumulation equals the sum of one band bonus
per signal, highest threshold first. -/
lemma conversion_probability_raw_eq (u : UsageSignals) :
    conversion_probability_raw u =
      (if u.dailyActiveUsers.getD 0 ≥ 15 then (0.30 : ℚ)
        else if u.dailyActiveUsers.getD 0 ≥ 10 then 0.20
        else if u.dailyActiveUsers.getD 0 ≥ 5 then 0.10 else 0) +
      (if u.featuresAdopted.getD 0 ≥ 5 then (0.25 : ℚ)
        else if u.featuresAdopted.getD 0 ≥ 3 then 0.15
        else if u.featuresAdopted.getD 0 ≥ 2 then 0.05 else 0) +
      (if u.apiCallsPerDay.getD 0 ≥ 300 then (0.20 : ℚ)
        else if u.apiCallsPerDay.getD 0 ≥ 150 then 0.10
        else if u.apiCallsPerDay.getD 0 ≥ 50 then 0.05 else 0) +
      (if u.loginFrequency7d.getD 0 ≥ 14 then (0.25 : ℚ)
        else if u.loginFrequency7d.getD 0 ≥ 10 then 0.15
        else if u.loginFrequency7d.getD 0 ≥ 5 then 0.05 else 0) := by
  unfold conversion_probability_raw
  simp only [ite_accum_three]
  ring

/-- The conversion probability never exceeds 1. -/
lemma conversion_probability_raw_le_one (u : UsageSignals) :
    conversion_probability_raw u ≤ 1 := by
  rw [conversion_probability_raw_eq]
  have h1 : (if u.dailyActiveUsers.getD 0 ≥ 15 then (0.30 : ℚ)
      else if u.dailyActiveUsers.getD 0 ≥ 10 then 0.20
      else if u.dailyActiveUsers.getD 0 ≥ 5 then 0.10 else 0) ≤ 0.30 := by
    split_ifs <;> norm_num
  have h2 : (if u.featuresAdopted.getD 0 ≥ 5 then (0.25 : ℚ)
      else if u.featuresAdopted.getD 0 ≥ 3 then 0.15
      else if u.featuresAdopted.getD 0 ≥ 2 then 0.05 else 0) ≤ 0.25 := by
    split_ifs <;> norm_num
  have h3 : (if u.apiCallsPerDay.getD 0 ≥ 300 then (0.20 : ℚ)
      else if u.apiCallsPerDay.getD 0 ≥ 150 then 0.10
      else if u.apiCallsPerDay.getD 0 ≥ 50 then 0.05 else 0) ≤ 0.20 := by
    split_ifs <;> norm_num
  have h4 : (if u.loginFrequency7d.getD 0 ≥ 14 then (0.25 : ℚ)
      else if u.loginFrequency7d.getD 0 ≥ 10 then 0.15
      else if u.loginFrequency7d.getD 0 ≥ 5 then 0.05 else 0) ≤ 0.25 := by
    split_ifs <;> norm_num
  linarith

/-- The tier thresholds of `get_probability_tier`, as closed-above regions. -/
lemma get_probability_tier_iffs (p : ℚ) :
    (get_probability_tier p = "high" ↔ 0.70 ≤ p) ∧
    (get_probability_tier p = "medium" ↔ 0.40 ≤ p ∧ p < 0.70) ∧
    (get_probability_tier p = "low" ↔ p < 0.40) := by
  rcases le_or_lt (0.70 : ℚ) p with h7 | h7
  · have e : get_probability_tier p = "high" := by
      unfold get_probability_tier conversionThresholdHigh
      rw [if_pos h7]
    rw [e]
    exact ⟨iff_of_true rfl h7,
      iff_of_false (by decide) (fun hh => absurd h7 (not_le.mpr hh.2)),
      iff_of_false (by decide) (fun hh => absurd h7 (not_le.mpr (by linarith)))⟩
  · rcases le_or_lt (0.40 : ℚ) p with h4 | h4
    · have e : get_probability_tier p = "medium" := by
        unfold get_probability_tier conversionThresholdHigh conversionThresholdMedium
        rw [if_neg (not_le.mpr h7), if_pos h4]
      rw [e]
      exact ⟨iff_of_false (by decide) (fun hh => absurd h7 (not_lt.mpr hh)),
        iff_of_true rfl ⟨h4, h7⟩,
        iff_of_false (by decide) (fun hh => absurd h4 (not_le.mpr hh))⟩
    · have e : get_probability_tier p = "low" := by
        unfold get_probability_tier conversionThresholdHigh conversionThresholdMedium
        rw [if_neg (not_le.mpr h7), if_neg (not_le.mpr h4)]
      rw [e]
      exact ⟨iff_of_false (by decide) (fun hh => by linarith),
        iff_of_false (by decide) (fun hh => by linarith [hh.1]),
        iff_of_true rfl h4⟩

/-- C4: the conversion probability is the sum of at most one band bonus per
signal (dau 0.30/0.20/0.10, features 0.25/0.15/0.05, api 0.20/0.10/0.05,
login 0.25/0.15/0.05), its maximum attainable value is exactly 1.0 (it is
always ≤ 1, and dau=20, features=6, api=500, login=18 attains 1.00 with tier
"high"), and the tier thresholds are ≥ 0.70 high, ≥ 0.40 medium, else low. -/
theorem c4_conversion_additive_bands_max_one :
    (∀ u : UsageSignals,
      conversion_probability_raw u =
        (if u.dailyActiveUsers.getD 0 ≥ 15 then (0.30 : ℚ)
          else if u.dailyActiveUsers.getD 0 ≥ 10 then 0.20
          else if u.dailyActiveUsers.getD 0 ≥ 5 then 0.10 else 0) +
        (if u.featuresAdopted.getD 0 ≥ 5 then (0.25 : ℚ)
          else if u.featuresAdopted.getD 0 ≥ 3 then 0.15
          else if u.featuresAdopted.getD 0 ≥ 2 then 0.05 else 0) +
        (if u.apiCallsPerDay.getD 0 ≥ 300 then (0.20 : ℚ)
          else if u.apiCallsPerDay.getD 0 ≥ 150 then 0.10
          else if u.apiCallsPerDay.getD 0 ≥ 50 then 0.05 else 0) +
        (if u.loginFrequency7d.getD 0 ≥ 14 then (0.25 : ℚ)
          else if u.loginFrequency7d.getD 0 ≥ 10 then 0.15
          else if u.loginFrequency7d.getD 0 ≥ 5 then 0.05 else 0)) ∧
    (∀ u : UsageSignals, conversion_probability_raw u ≤ 1) ∧
    (∀ now : String,
      (calculate_conversion_probability topTrialAccount now).conversionProbability = 1 ∧
      (calculate_conversion_probability topTrialAccount now).probabilityTier = "high") ∧
    (∀ p : ℚ,
      (get_probability_tier p = "high" ↔ 0.70 ≤ p) ∧
      (get_probability_tier p = "medium" ↔ 0.40 ≤ p ∧ p < 0.70) ∧
      (get_probability_tier p = "low" ↔ p < 0.40)) := by
  refine ⟨conversion_probability_raw_eq, conversion_probability_raw_le_one, ?_,
    get_probability_tier_iffs⟩
  intro now
  have hp : conversion_probability_raw topTrialAccount.usageSignals = 1 := by
    rw [conversion_probability_raw_eq]
    norm_num [topTrialAccount]
  constructor
  · show pyRound 3 (conversion_probability_raw topTrialAccount.usageSignals) = 1
    rw [hp]
    exact pyRound_eq_self ⟨1000, by norm_num⟩
  · show get_probability_tier (conversion_probability_raw topTrialAccount.usageSignals) = "high"
    rw [hp]
    exact (get_probability_tier_iffs 1).1.mpr (by norm_num)

/-- A signals bag with every key present and false/zero, used to exhibit the
impact labels of the boolean features at value `false`. -/
def allFalseSignals : Signals :=
  { websiteVisits30d := some 0, emailEngagementScore := some 0,
    demoRequested := some false, freeTrialStarted := some false,
    whitepaperDownloads := some 0, linkedinEngagement := some false }

/-- C5 counterexample: with `free_trial_started = false` (and
`linkedin_engagement = false`) the code labels those boolean features
"neutral", not "negative", so the impact of a boolean feature is not always
"positive"/"negative" directly from the boolean value; only `demo_requested`
behaves that way. -/
theorem c5_boolean_impact_counterexample :
    (calculate_engagement_score allFalseSignals).2.map
        (fun a => (a.featureName, a.impact)) =
      [("website_visits_30d", "neutral"), ("email_engagement_score", "neutral"),
       ("demo_requested", "negative"), ("free_trial_started", "neutral"),
       ("whitepaper_downloads", "neutral")] ∧
    (calculate_engagement_score allFalseSignals).2.map FeatureAttribution.value =
      [SigValue.nat 0, SigValue.rat 0, SigValue.bool false, SigValue.bool false,
       SigValue.nat 0] ∧
    (calculate_intent_score allFalseSignals).2.map
        (fun a => (a.featureName, a.value, a.impact)) =
      [("linkedin_engagement", SigValue.bool false, "neutral")] ∧
    "neutral" ≠ "negative" := by
  exact ⟨rfl, rfl, rfl, by decide⟩

/-- C5 (amended): the numeric features' impact is "positive" above their
feature-specific thresholds (visits > 20, email > 60, downloads > 2) else
"neutral"; `demo_requested`'s impact is "positive"/"negative" directly from
the boolean; `free_trial_started`'s and `linkedin_engagement`'s impact is
"positive" when true and "neutral" (not "negative") when false. -/
theorem c5_amended_impact_labels :
    ∀ signals : Signals,
      (calculate_engagement_score signals).2.map FeatureAttribution.impact =
        [if signals.websiteVisits30d.getD 0 > 20 then "positive" else "neutral",
         if signals.emailEngagementScore.getD 0 > 60 then "positive" else "neutral",
         if signals.demoRequested.getD false = true then "positive" else "negative",
         if signals.freeTrialStarted.getD false = true then "positive" else "neutral",
         if signals.whitepaperDownloads.getD 0 > 2 then "positive" else "neutral"] ∧
      (calculate_intent_score signals).2.map FeatureAttribution.impact =
        [if signals.linkedinEngagement.getD false = true then "positive" else "neutral"] := by
  intro signals
  exact ⟨rfl, rfl⟩

/-- The engagement sub-score lies in [0, 100] whenever the email engagement
value (if present) does. -/
lemma calculate_engagement_score_bounds (s : Signals)
    (h : ∀ e, s.emailEngagementScore = some e → 0 ≤ e ∧ e ≤ 100) :
    0 ≤ (calculate_engagement_score s).1 ∧ (calculate_engagement_score s).1 ≤ 100 := by
  have hw0 : (0:ℚ) ≤ min 100 ((s.websiteVisits30d.getD 0 : ℚ) / 50 * 100) :=
    le_min (by norm_num) (by positivity)
  have hw1 : min 100 ((s.websiteVisits30d.getD 0 : ℚ) / 50 * 100) ≤ 100 :=
    min_le_left _ _
  have hp0 : (0:ℚ) ≤ min 100 ((s.whitepaperDownloads.getD 0 : ℚ) / 5 * 100) :=
    le_min (by norm_num) (by positivity)
  have hp1 : min 100 ((s.whitepaperDownloads.getD 0 : ℚ) / 5 * 100) ≤ 100 :=
    min_le_left _ _
  have he0 : (0:ℚ) ≤ s.emailEngagementScore.getD 0 := by
    rcases hse : s.emailEngagementScore with _ | e
    · simp
    · simpa using (h e hse).1
  have he1 : s.emailEngagementScore.getD 0 ≤ 100 := by
    rcases hse : s.emailEngagementScore with _ | e
    · simp
    · simpa using (h e hse).2
  unfold calculate_engagement_score
  dsimp only
  constructor <;> split_ifs <;> linarith

/-- The company-size bucket score lies in [0, 100]. -/
lemma get_company_size_score_bounds (ec : ℕ) :
    0 ≤ get_company_size_score ec ∧ get_company_size_score ec ≤ 100 := by
  unfold get_company_size_score
  split_ifs <;> norm_num

/-- Bounding an `ite` from above by bounding both branches. -/
lemma ite_le {p : Prop} [Decidable p] {a b c : ℚ} (h1 : a ≤ c) (h2 : b ≤ c) :
    (if p then a else b) ≤ c := by
  split_ifs <;> assumption

/-- Bounding an `ite` from below by bounding both branches. -/
lemma le_ite {p : Prop} [Decidable p] {a b c : ℚ} (h1 : c ≤ a) (h2 : c ≤ b) :
    c ≤ (if p then a else b) := by
  split_ifs <;> assumption

/-- Every industry-fit score lies in [0, 100]. -/
lemma industryFit_bounds (i : String) :
    0 ≤ industryFit i ∧ industryFit i ≤ 100 := by
  constructor
  · unfold industryFit
    repeat' apply le_ite
    all_goals norm_num
  · unfold industryFit
    repeat' apply ite_le
    all_goals norm_num

/-- The intent sub-score lies in [0, 100]. -/
lemma calculate_intent_score_bounds (s : Signals) :
    0 ≤ (calculate_intent_score s).1 ∧ (calculate_intent_score s).1 ≤ 100 := by
  unfold calculate_intent_score
  dsimp only
  split_ifs <;> norm_num

/-- The final lead score is a convex combination of sub-scores in [0, 100],
hence itself in [0, 100]. -/
lemma lead_final_score_bounds (s : Signals) (industry : String) (ec : ℕ)
    (h : ∀ e, s.emailEngagementScore = some e → 0 ≤ e ∧ e ≤ 100) :
    0 ≤ lead_final_score s industry ec ∧ lead_final_score s industry ec ≤ 100 := by
  have h1 := get_company_size_score_bounds ec
  have h2 := calculate_engagement_score_bounds s h
  have h3 := industryFit_bounds industry
  have h4 := calculate_intent_score_bounds s
  unfold lead_final_score weightCompanySize weightEngagementSignals
    weightIndustryFit weightIntentSignals
  constructor <;> linarith [h1.1, h1.2, h2.1, h2.2, h3.1, h3.2, h4.1, h4.2]

/-- Rounding to two decimals stays within [0, 100]. -/
lemma pyRound_two_bounds {q : ℚ} (h0 : 0 ≤ q) (h1 : q ≤ 100) :
    0 ≤ pyRound 2 q ∧ pyRound 2 q ≤ 100 := by
  have e : ((10:ℚ) ^ (2:ℕ)) = 100 := by norm_num
  unfold pyRound
  rw [e]
  have hz0 : (0:ℤ) ≤ round (q * 100) := by
    rw [round_eq]
    refine Int.floor_nonneg.2 ?_
    have hq : (0:ℚ) ≤ q * 100 := by linarith
    linarith
  have hz1 : round (q * 100) ≤ (10000 : ℤ) := by
    rw [round_eq]
    refine Int.floor_le_iff.2 ?_
    push_cast
    linarith
  constructor
  · exact div_nonneg (by exact_mod_cast hz0) (by norm_num)
  · rw [div_le_iff₀ (by norm_num : (0:ℚ) < 100)]
    calc ((round (q * 100) : ℤ) : ℚ) ≤ ((10000 : ℤ) : ℚ) := by exact_mod_cast hz1
      _ = 100 * 100 := by norm_num

/-- The tier thresholds of `lead_tier`, as closed-above regions. -/
lemma lead_tier_iffs (fs : ℚ) :
    (lead_tier fs = "hot" ↔ 70 ≤ fs) ∧
    (lead_tier fs = "warm" ↔ 40 ≤ fs ∧ fs < 70) ∧
    (lead_tier fs = "cold" ↔ fs < 40) := by
  rcases le_or_lt (70 : ℚ) fs with h7 | h7
  · have e : lead_tier fs = "hot" := by
      unfold lead_tier leadTierThresholdHot
      rw [if_pos h7]
    rw [e]
    exact ⟨iff_of_true rfl h7,
      iff_of_false (by decide) (fun hh => absurd h7 (not_le.mpr hh.2)),
      iff_of_false (by decide) (fun hh => absurd h7 (not_le.mpr (by linarith)))⟩
  · rcases le_or_lt (40 : ℚ) fs with h4 | h4
    · have e : lead_tier fs = "warm" := by
        unfold lead_tier leadTierThresholdHot leadTierThresholdWarm
        rw [if_neg (not_le.mpr h7), if_pos h4]
      rw [e]
      exact ⟨iff_of_false (by decide) (fun hh => absurd h7 (not_lt.mpr hh)),
        iff_of_true rfl ⟨h4, h7⟩,
        iff_of_false (by decide) (fun hh => absurd h4 (not_le.mpr hh))⟩
    · have e : lead_tier fs = "cold" := by
        unfold lead_tier leadTierThresholdHot leadTierThresholdWarm
        rw [if_neg (not_le.mpr h7), if_neg (not_le.mpr h4)]
      rw [e]
      exact ⟨iff_of_false (by decide) (fun hh => by linarith),
        iff_of_false (by decide) (fun hh => by linarith [hh.1]),
        iff_of_true rfl h4⟩

/-- C2: for well-typed input (count signals are naturals; the email engagement
value, when present, lies in [0,100]) the lead-score weights sum to 1, the
returned score is in [0,100], and the tier is the closed-above thresholding of
the final weighted score: ≥ 70 hot, in [40,70) warm, < 40 cold. -/
theorem c2_lead_score_bounds_and_tier_boundaries :
    ∀ (name : String) (signals : Signals) (industry : String)
      (employeeCount : ℕ) (now : String),
      (∀ e, signals.emailEngagementScore = some e → 0 ≤ e ∧ e ≤ 100) →
      weightCompanySize + weightEngagementSignals + weightIndustryFit +
          weightIntentSignals = 1 ∧
      0 ≤ (score_lead name signals industry employeeCount now).score ∧
      (score_lead name signals industry employeeCount now).score ≤ 100 ∧
      ((score_lead name signals industry employeeCount now).tier = "hot" ↔
        70 ≤ lead_final_score signals industry employeeCount) ∧
      ((score_lead name signals industry employeeCount now).tier = "warm" ↔
        40 ≤ lead_final_score signals industry employeeCount ∧
          lead_final_score signals industry employeeCount < 70) ∧
      ((score_lead name signals industry employeeCount now).tier = "cold" ↔
        lead_final_score signals industry employeeCount < 40) := by
  intro name signals industry employeeCount now h
  have hb := lead_final_score_bounds signals industry employeeCount h
  have hs : (score_lead name signals industry employeeCount now).score =
      pyRound 2 (lead_final_score signals industry employeeCount) := rfl
  have ht : (score_lead name signals industry employeeCount now).tier =
      lead_tier (lead_final_score signals industry employeeCount) := rfl
  rw [hs, ht]
  have hr := pyRound_two_bounds hb.1 hb.2
  have hi := lead_tier_iffs (lead_final_score signals industry employeeCount)
  exact ⟨by norm_num [weightCompanySize, weightEngagementSignals,
      weightIndustryFit, weightIntentSignals],
    hr.1, hr.2, hi.1, hi.2.1, hi.2.2⟩

/-- C2 witness: the bounds instantiated at a concrete call. -/
theorem c2_lead_score_bounds_witness :
    (0 : ℚ) ≤ (score_lead "Acme" Signals.empty "technology" 100 "t0").score ∧
    (score_lead "Acme" Signals.empty "technology" 100 "t0").score ≤ 100 :=
  ⟨(c2_lead_score_bounds_and_tier_boundaries "Acme" Signals.empty "technology"
      100 "t0" (fun e he => by simp [Signals.empty] at he)).2.1,
   (c2_lead_score_bounds_and_tier_boundaries "Acme" Signals.empty "technology"
      100 "t0" (fun e he => by simp [Signals.empty] at he)).2.2.1⟩

/-- Membership in one intervention-loop step: the accumulator's elements plus
whichever of the three suggestions the factor's substrings trigger. -/
lemma mem_intervention_step (acc : List String) (f s : String) :
    s ∈ intervention_step acc f ↔
      s ∈ acc ∨
      ((strContains f "NPS" || strContains f "support ticket") = true ∧
        s = "Schedule executive business review to address concerns") ∨
      ((strContains f "daily active" || strContains f "login") = true ∧
        s = "Provide personalized onboarding/training session") ∨
      (strContains f "feature adoption" = true ∧
        s = "Demonstrate advanced features relevant to their use case") := by
  have mem_ite_append : ∀ (c : Prop) [Decidable c] (l : List String) (t s : String),
      (s ∈ if c then l ++ [t] else l) ↔ s ∈ l ∨ (c ∧ s = t) := by
    intro c _ l t s
    split_ifs with h <;> simp [List.mem_append, h]
  unfold intervention_step
  dsimp only
  rw [mem_ite_append, mem_ite_append, mem_ite_append]
  tauto

/-- Membership in the intervention fold: the accumulator's elements plus the
suggestions triggered by some factor of the list. -/
lemma mem_intervention_foldl (factors : List String) (acc : List String) (s : String) :
    s ∈ factors.foldl intervention_step acc ↔
      s ∈ acc ∨ ∃ f ∈ factors,
        (((strContains f "NPS" || strContains f "support ticket") = true ∧
            s = "Schedule executive business review to address concerns") ∨
         ((strContains f "daily active" || strContains f "login") = true ∧
            s = "Provide personalized onboarding/training session") ∨
         (strContains f "feature adoption" = true ∧
            s = "Demonstrate advanced features relevant to their use case")) := by
  induction factors generalizing acc with
  | nil => simp
  | cons f fs ih =>
    rw [List.foldl_cons, ih, mem_intervention_step]
    simp only [List.mem_cons]
    constructor
    · rintro ((h | h | h | h) | ⟨g, hg, hgo⟩)
      · exact Or.inl h
      · exact Or.inr ⟨f, Or.inl rfl, Or.inl h⟩
      · exact Or.inr ⟨f, Or.inl rfl, Or.inr (Or.inl h)⟩
      · exact Or.inr ⟨f, Or.inl rfl, Or.inr (Or.inr h)⟩
      · exact Or.inr ⟨g, Or.inr hg, hgo⟩
    · rintro (h | ⟨g, rfl | hg, hgo⟩)
      · exact Or.inl (Or.inl h)
      · rcases hgo with h | h | h
        · exact Or.inl (Or.inr (Or.inl h))
        · exact Or.inl (Or.inr (Or.inr (Or.inl h)))
        · exact Or.inl (Or.inr (Or.inr (Or.inr h)))
      · exact Or.inr ⟨g, hg, hgo⟩

/-- C7: the suggested interventions are exactly (as a deduplicated list whose
order is not significant) the suggestions obtained from the declining-signal
strings by substring matching, plus the Professional-tier upsell exactly when
the account's plan is "starter". -/
theorem c7_interventions_membership_dedup :
    ∀ (factors : List String) (account : Account) (s : String),
      (s ∈ generate_intervention_suggestions factors account ↔
        (∃ f ∈ factors,
          (strContains f "NPS" || strContains f "support ticket") = true ∧
          s = "Schedule executive business review to address concerns") ∨
        (∃ f ∈ factors,
          (strContains f "daily active" || strContains f "login") = true ∧
          s = "Provide personalized onboarding/training session") ∨
        (∃ f ∈ factors,
          strContains f "feature adoption" = true ∧
          s = "Demonstrate advanced features relevant to their use case") ∨
        (account.plan = "starter" ∧
          s = "Explore upsell to Professional tier with more features")) ∧
      (generate_intervention_suggestions factors account).Nodup := by
  intro factors account s
  refine ⟨?_, List.nodup_dedup _⟩
  unfold generate_intervention_suggestions
  dsimp only
  rw [List.mem_dedup]
  by_cases hp : account.plan = "starter"
  · rw [if_pos hp, List.mem_append, mem_intervention_foldl]
    simp only [List.not_mem_nil, false_or, List.mem_singleton]
    constructor
    · rintro (⟨f, hf, h | h | h⟩ | h)
      · exact Or.inl ⟨f, hf, h⟩
      · exact Or.inr (Or.inl ⟨f, hf, h⟩)
      · exact Or.inr (Or.inr (Or.inl ⟨f, hf, h⟩))
      · exact Or.inr (Or.inr (Or.inr ⟨hp, h⟩))
    · rintro (⟨f, hf, h⟩ | ⟨f, hf, h⟩ | ⟨f, hf, h⟩ | ⟨_, h⟩)
      · exact Or.inl ⟨f, hf, Or.inl h⟩
      · exact Or.inl ⟨f, hf, Or.inr (Or.inl h)⟩
      · exact Or.inl ⟨f, hf, Or.inr (Or.inr h)⟩
      · exact Or.inr h
  · rw [if_neg hp, mem_intervention_foldl]
    simp only [List.not_mem_nil, false_or]
    constructor
    · rintro ⟨f, hf, h | h | h⟩
      · exact Or.inl ⟨f, hf, h⟩
      · exact Or.inr (Or.inl ⟨f, hf, h⟩)
      · exact Or.inr (Or.inr (Or.inl ⟨f, hf, h⟩))
    · rintro (⟨f, hf, h⟩ | ⟨f, hf, h⟩ | ⟨f, hf, h⟩ | ⟨hpl, h⟩)
      · exact ⟨f, hf, Or.inl h⟩
      · exact ⟨f, hf, Or.inr (Or.inl h)⟩
      · exact ⟨f, hf, Or.inr (Or.inr h)⟩
      · exact absurd hpl hp

/-- C9: the gateway returns a structured error object (not a raised fault)
whenever the resolved account's plan is not "trial", and the conversion
engine's result does not depend on the plan field at all. -/
theorem c9_gateway_non_trial_error_object :
    (∀ (getAccount : String → Option Account) (accountId now : String)
        (account : Account),
      getAccount accountId = some account → account.plan ≠ "trial" →
      get_conversion_insights getAccount accountId now =
        Except.ok (ConversionInsightsResponse.errObj
          { error := "Account " ++ accountId ++ " is not a trial account (plan: " ++
              account.plan ++ ")" })) ∧
    (∀ (account : Account) (plan now : String),
      calculate_conversion_probability { account with plan := plan } now =
        calculate_conversion_probability account now) := by
  constructor
  · intro getAccount accountId now account hget hplan
    unfold get_conversion_insights
    rw [hget]
    dsimp only
    rw [if_pos hplan]
  · intro account plan now
    rfl

/-- An account on a non-trial plan, with a one-entry record store, to witness
the gateway's structured-error branch. -/
def nonTrialAccount : Account :=
  { id := "acct-9", company := "NonTrialCo", plan := "starter",
    usageSignals :=
      { dailyActiveUsers := none, npsScore := none, supportTickets30d := none,
        loginFrequency7d := none, featuresAdopted := none, apiCallsPerDay := none } }

/-- The record store holding only `nonTrialAccount`. -/
def nonTrialStore : String → Option Account :=
  fun accountId => if accountId = "acct-9" then some nonTrialAccount else none

/-- C9 witness: the gateway branch instantiated at the concrete store. -/
theorem c9_gateway_witness :
    get_conversion_insights nonTrialStore "acct-9" "t0" =
      Except.ok (ConversionInsightsResponse.errObj
        { error := "Account " ++ "acct-9" ++ " is not a trial account (plan: " ++
            nonTrialAccount.plan ++ ")" }) :=
  c9_gateway_non_trial_error_object.1 nonTrialStore "acct-9" "t0" nonTrialAccount
    rfl (by decide)
